import Mathlib

/-!
Verification of the retirement-calculator simulation engine.

The Python source is shallowly embedded over exact rational arithmetic
(`ℚ` replaces Python floats; `ℝ` is used only where the source computes a
square root).  Random draws are passed in explicitly: the multivariate
normal sampler of `Portfolio.generate_annual_returns` becomes a stream
`ℕ → AnnualReturns` of per-year samples, the standard-normal innovations
of the AR(1) model become streams `ℕ → ℝ`, and the bootstrap row sampler
becomes a stream of row indices `ℕ → ℕ`.
-/

namespace RetirementCalc

/-- The `params["target_allocation"]` dict in `src/main.py`, with keys
`stocks`, `bonds`, `cash`. -/
structure TargetAllocation where
  stocks : ℚ
  bonds : ℚ
  cash : ℚ
  deriving DecidableEq, Repr

/-- The parameter dict consumed by `RetirementSimulation` in `src/main.py`
(lines 46-63 document the keys). -/
structure SimParams where
  starting_portfolio : ℚ
  annual_spending : ℚ
  target_allocation : TargetAllocation
  retirement_age : ℤ
  simulation_years : ℕ
  enable_parttime_income : Bool
  parttime_max_age : ℤ
  parttime_withdrawal_rate_threshold : ℚ
  parttime_annual_income : ℚ
  ss_start_age : ℤ
  ss_annual_benefit : ℚ
  deriving DecidableEq, Repr

/-- One row of `Portfolio.generate_annual_returns`:
`[stocks, bonds, cash, inflation]`. -/
structure AnnualReturns where
  stock : ℚ
  bond : ℚ
  cash : ℚ
  inflation : ℚ
  deriving DecidableEq, Repr

/-- The mutable loop state of `simulate_single_retirement`: the three
asset-class balances and the cumulative inflation multiplier. -/
structure SimState where
  stocks_value : ℚ
  bonds_value : ℚ
  cash_value : ℚ
  cumulative_inflation : ℚ
  deriving DecidableEq, Repr

/-- One period's appended entries across the parallel lists of the
`results` dict in `simulate_single_retirement` (the lists are appended to
exactly once per loop iteration, so a record per period is faithful). -/
structure YearRecord where
  year : ℕ
  age : ℤ
  portfolio_value_start : ℚ
  spending_need : ℚ
  ss_income : ℚ
  parttime_income : ℚ
  net_withdrawal : ℚ
  withdrawal_rate : ℚ
  inflation_rate : ℚ
  stocks_value : ℚ
  bonds_value : ℚ
  cash_value : ℚ
  portfolio_value_end : ℚ
  deriving DecidableEq, Repr

/-- Line 94 of `src/main.py`: `current_portfolio = stocks_value + bonds_value
+ cash_value`. -/
def currentPortfolio (st : SimState) : ℚ :=
  st.stocks_value + st.bonds_value + st.cash_value

/-- Step 1-2, line 101: spending adjusted by cumulative inflation. -/
def spendingNeed (p : SimParams) (st : SimState) : ℚ :=
  p.annual_spending * st.cumulative_inflation

/-- Step 2, lines 107-109: Social Security income, zero before
`ss_start_age`. -/
def ssIncome (p : SimParams) (age : ℤ) (st : SimState) : ℚ :=
  if p.ss_start_age ≤ age then p.ss_annual_benefit * st.cumulative_inflation else 0

/-- Step 3, line 113: `preliminary_withdrawal = max(0,
inflation_adjusted_spending - ss_income)`. -/
def preliminaryWithdrawal (spending ss : ℚ) : ℚ :=
  max 0 (spending - ss)

/-- Step 4, lines 116-132: the part-time income trigger.  The ratio
`preliminary_withdrawal / current_portfolio` is only formed inside the
`current_portfolio > 0` guard, exactly as in the source. -/
def parttimeIncome (p : SimParams) (age : ℤ) (cp prelim cumInf : ℚ) : ℚ :=
  if p.enable_parttime_income ∧ age ≤ p.parttime_max_age ∧ 0 < cp then
    if p.parttime_withdrawal_rate_threshold < prelim / cp then
      p.parttime_annual_income * cumInf
    else 0
  else 0

/-- Step 5, lines 137-139: `net_withdrawal = max(0, spending - ss -
parttime)`. -/
def netWithdrawal (spending ss parttime : ℚ) : ℚ :=
  max 0 (spending - ss - parttime)

/-- Lines 143-146: the realized withdrawal rate; the division is guarded
by `current_portfolio > 0`, else the rate is `0`. -/
def actualWithdrawalRate (cp net : ℚ) : ℚ :=
  if 0 < cp then net / cp else 0

/-- Step 6, lines 150-154: proportional withdrawal from each balance,
applied only when `current_portfolio > 0 and net_withdrawal > 0`. -/
def withdrawalStep (cp net s b c : ℚ) : ℚ × ℚ × ℚ :=
  if 0 < cp ∧ 0 < net then
    (s * (1 - net / cp), b * (1 - net / cp), c * (1 - net / cp))
  else (s, b, c)

/-- Step 9, lines 176-180: rebalance every balance to
`current_portfolio * weight`. -/
def rebalance (p : SimParams) (total : ℚ) : ℚ × ℚ × ℚ :=
  (total * p.target_allocation.stocks,
   total * p.target_allocation.bonds,
   total * p.target_allocation.cash)

/-- One iteration of the `for year in range(...)` loop of
`simulate_single_retirement` (lines 92-185): returns the period's record
and the state passed to the next iteration. -/
def simulateYear (p : SimParams) (ret : AnnualReturns) (year : ℕ)
    (st : SimState) : YearRecord × SimState :=
  let age : ℤ := p.retirement_age + (year : ℤ)
  let cp := currentPortfolio st
  let spending := spendingNeed p st
  let ss := ssIncome p age st
  let prelim := preliminaryWithdrawal spending ss
  let parttime := parttimeIncome p age cp prelim st.cumulative_inflation
  let net := netWithdrawal spending ss parttime
  let rate := actualWithdrawalRate cp net
  let w := withdrawalStep cp net st.stocks_value st.bonds_value st.cash_value
  let cumInf := st.cumulative_inflation * (1 + ret.inflation)
  let s2 := w.1 * (1 + ret.stock)
  let b2 := w.2.1 * (1 + ret.bond)
  let c2 := w.2.2 * (1 + ret.cash)
  let cp2 := s2 + b2 + c2
  let reb := rebalance p cp2
  (⟨year, age, cp, spending, ss, parttime, net, rate, ret.inflation,
    reb.1, reb.2.1, reb.2.2, cp2⟩,
   ⟨reb.1, reb.2.1, reb.2.2, cumInf⟩)

/-- Lines 188-189: `if current_portfolio <= 0 and results["success"]:
results["success"] = False`. -/
def updateSuccess (endValue : ℚ) (success : Bool) : Bool :=
  if endValue ≤ 0 ∧ success = true then false else success

/-- Lines 85-90: the portfolio is initialised at the target allocation
and the cumulative inflation multiplier at `1.0`. -/
def initState (p : SimParams) : SimState :=
  ⟨p.starting_portfolio * p.target_allocation.stocks,
   p.starting_portfolio * p.target_allocation.bonds,
   p.starting_portfolio * p.target_allocation.cash,
   1⟩

/-- The simulation loop from period `year`, running `fuel` more periods,
threading the state and the success flag. -/
def runAux (p : SimParams) (rets : ℕ → AnnualReturns) :
    (year fuel : ℕ) → SimState → Bool → List YearRecord × Bool
  | _, 0, _, success => ([], success)
  | year, fuel + 1, st, success =>
    let step := simulateYear p (rets year) year st
    let success2 := updateSuccess step.1.portfolio_value_end success
    let rest := runAux p rets (year + 1) fuel step.2 success2
    (step.1 :: rest.1, rest.2)

/-- The body of `RetirementSimulation.simulate_single_retirement` (lines 65-191):
the full list of per-period records together with the final success
flag. -/
def simulate_single_retirement (p : SimParams) (rets : ℕ → AnnualReturns) :
    List YearRecord × Bool :=
  runAux p rets 0 p.simulation_years (initState p) true

/-- The constructor `RetirementSimulation.__init__` (lines 46-63): it stores the
portfolio's return stream and the parameter dict, performing no
validation of any kind. -/
structure RetirementSimulation where
  returns : ℕ → AnnualReturns
  params : SimParams

/-- Construction of a `RetirementSimulation`: the `__init__` body is just
the two assignments `self.portfolio = portfolio; self.params = params`;
it cannot fail. -/
def mkRetirementSimulation (returns : ℕ → AnnualReturns) (p : SimParams) :
    RetirementSimulation :=
  ⟨returns, p⟩

/-! ### `src/return_models/monte_carlo.py` — `Simulation.run` -/

/-- The fields of `Simulation.__init__` used by `run`
(`src/return_models/monte_carlo.py` lines 8-15). -/
structure MCParams where
  initial_portfolio_value : ℚ
  withdrawal_rate : ℚ
  allocation_stocks : ℚ
  allocation_bonds : ℚ
  deriving DecidableEq, Repr

/-- The constructor's hard-coded values (lines 9-12). -/
def mcDefaultParams : MCParams :=
  ⟨750000, 4 / 100, 6 / 10, 4 / 10⟩

/-- The dict returned by `Simulation.run` (lines 37-41). -/
structure MCResult where
  portfolio_values : List ℚ
  success : Bool
  failure_year : Option ℕ
  deriving DecidableEq, Repr

/-- The `for i, returns in enumerate(all_returns)` loop of
`Simulation.run` (lines 24-35), threading the portfolio value, the
success flag and `year_failed`. -/
def mcRunAux (p : MCParams) (withdrawal : ℚ) :
    List (ℚ × ℚ) → ℕ → ℚ → Bool → Option ℕ → List ℚ × Bool × Option ℕ
  | [], _, _, success, year_failed => ([], success, year_failed)
  | r :: rest, i, pv, success, year_failed =>
    let pv1 := pv - withdrawal
    let stock_gains := pv1 * p.allocation_stocks * r.1
    let bond_gains := pv1 * p.allocation_bonds * r.2
    let pv2 := pv1 + stock_gains + bond_gains
    let fail := success = true ∧ pv2 ≤ 0
    let success2 := if fail then false else success
    let yf2 := if fail then some (i + 1) else year_failed
    let rest2 := mcRunAux p withdrawal rest (i + 1) pv2 success2 yf2
    (pv2 :: rest2.1, rest2.2)

/-- The method `Simulation.run` (lines 17-41): `all_returns` is the `(n_years, 2)`
array produced by the chosen return model, given here as a list of
`(stock, bond)` pairs. -/
def mcRun (p : MCParams) (all_returns : List (ℚ × ℚ)) : MCResult :=
  let withdrawal := p.initial_portfolio_value * p.withdrawal_rate
  let res := mcRunAux p withdrawal all_returns 0 p.initial_portfolio_value true none
  ⟨res.1, res.2.1, res.2.2⟩

/-! ### `src/main.py` — `MonteCarloSimulation._compute_summary`,
depletion-age statistics (lines 273-313) -/

/-- Lines 277-281: the first year whose end value is `<= 0` gives the
depletion age of a trial (`ages[i]` for the first `i` with
`portfolio_values_end[i] <= 0`); the parallel lists are kept together in
`YearRecord`. -/
def depletionAge (recs : List YearRecord) : Option ℤ :=
  (recs.find? (fun r => decide (r.portfolio_value_end ≤ 0))).map (·.age)

/-- Lines 274-281: depletion ages are collected only from simulations
with `not sim["success"]`. -/
def depletionAges (sims : List (List YearRecord × Bool)) : List ℤ :=
  sims.foldr
    (fun sim acc =>
      if sim.2 = false then
        match depletionAge sim.1 with
        | some a => a :: acc
        | none => acc
      else acc)
    []

/-- The `np.median` of a list of integer ages: the middle element of the
sorted list, or the average of the two middle elements. -/
def npMedian (xs : List ℤ) : ℚ :=
  let s := xs.mergeSort (fun a b => decide (a ≤ b))
  let n := s.length
  if n % 2 = 1 then ((s.getD (n / 2) 0 : ℤ) : ℚ)
  else (((s.getD (n / 2 - 1) 0 : ℤ) : ℚ) + ((s.getD (n / 2) 0 : ℤ) : ℚ)) / 2

/-- The `np.mean` of a list of integer ages. -/
def npMean (xs : List ℤ) : ℚ :=
  (xs.sum : ℚ) / (xs.length : ℚ)

/-- The `summary["depletion_age"]` sub-dict (lines 309-313). -/
structure DepletionAgeStats where
  median : Option ℚ
  mean : Option ℚ
  earliest : Option ℤ
  deriving DecidableEq, Repr

/-- Lines 309-313: each statistic is `... if depletion_ages else None`;
`min(depletion_ages)` is the earliest depletion age. -/
def depletionAgeStats (sims : List (List YearRecord × Bool)) : DepletionAgeStats :=
  if (depletionAges sims).isEmpty then ⟨none, none, none⟩
  else ⟨some (npMedian (depletionAges sims)), some (npMean (depletionAges sims)),
    (depletionAges sims).min?⟩

/-! ### `src/return_models/historical_bootstrap.py` — `bootstrap_returns`

`pandas.DataFrame.sample(n, replace=True)` draws `n` row indices
independently and uniformly from the dataset; the drawn index sequence is
passed in as `idx : ℕ → ℕ`.  Sampling whole rows keeps the `(stock,
bond)` pairing of each historical year. -/

/-- The `.sample(n=n_years, replace=True)` call (line 40), for a general
row count `n`: row `idx i` of the dataset is taken for each of the `n`
draws. -/
def bootstrap_rows (data : List (ℚ × ℚ)) (idx : ℕ → ℕ) (n : ℕ) :
    List (ℚ × ℚ) :=
  (List.range n).map (fun i => data.getD (idx i) (0, 0))

/-- The function `bootstrap_returns` (lines 26-43): `n_years` is hard-coded to 30 and
the dataset is the loaded Shiller table. -/
def bootstrap_returns (data : List (ℚ × ℚ)) (idx : ℕ → ℕ) : List (ℚ × ℚ) :=
  bootstrap_rows data idx 30

end RetirementCalc

namespace RetirementCalc

/-! ### `src/return_models/mean_reversion.py` — `ar1_returns`

Over `ℝ`, since the source computes a square root.  The draw
`np.random.normal(0, sigma)` is modelled as `sigma * z t` with
`z : ℕ → ℝ` a stream of standard-normal samples. -/

/-- Line 28: `stock_mu = 0.10`. -/
noncomputable def stock_mu : ℝ := 0.10

/-- Line 29: `stock_phi = -0.3`. -/
noncomputable def stock_phi : ℝ := -0.3

/-- Line 30: `stock_historical_std = 0.20`. -/
noncomputable def stock_historical_std : ℝ := 0.20

/-- Line 33: `stock_sigma = stock_historical_std * np.sqrt(1 -
stock_phi**2)`. -/
noncomputable def stock_sigma : ℝ :=
  stock_historical_std * Real.sqrt (1 - stock_phi ^ 2)

/-- Line 36: `bond_mu = 0.05`. -/
noncomputable def bond_mu : ℝ := 0.05

/-- Line 37: `bond_phi = -0.3`. -/
noncomputable def bond_phi : ℝ := -0.3

/-- Line 38: `bond_historical_std = 0.06`. -/
noncomputable def bond_historical_std : ℝ := 0.06

/-- Line 39: `bond_sigma = bond_historical_std * np.sqrt(1 -
bond_phi**2)`. -/
noncomputable def bond_sigma : ℝ :=
  bond_historical_std * Real.sqrt (1 - bond_phi ^ 2)

/-- Lines 42-61: `returns[0] = mu`, and for `t ≥ 1`,
`returns[t] = mu + phi * (returns[t-1] - mu) + epsilon` with `epsilon`
drawn as `N(0, sigma)`. -/
noncomputable def ar1Path (mu phi : ℝ) (eps : ℕ → ℝ) : ℕ → ℝ
  | 0 => mu
  | t + 1 => mu + phi * (ar1Path mu phi eps t - mu) + eps (t + 1)

/-- The stock column of `ar1_returns`, with its own innovation stream. -/
noncomputable def stockReturns (z : ℕ → ℝ) : ℕ → ℝ :=
  ar1Path stock_mu stock_phi (fun t => stock_sigma * z t)

/-- The bond column of `ar1_returns`, with its own innovation stream. -/
noncomputable def bondReturns (z : ℕ → ℝ) : ℕ → ℝ :=
  ar1Path bond_mu bond_phi (fun t => bond_sigma * z t)

/-- Line 25: `n_years = 30`. -/
def ar1_n_years : ℕ := 30

/-- Lines 63-66: `np.column_stack([stock_returns, bond_returns])`, one
`(stock, bond)` pair per year. -/
noncomputable def ar1_returns (zs zb : ℕ → ℝ) : List (ℝ × ℝ) :=
  (List.range ar1_n_years).map (fun t => (stockReturns zs t, bondReturns zb t))

end RetirementCalc

namespace RetirementCalc

/-! ### Concrete inputs used to exercise the definitions -/

/-- A default record value for list lookups. -/
def dummyRecord : YearRecord :=
  ⟨0, 0, 0, 0, 0, 0, 0, 0, 0, 0, 0, 0, 0⟩

/-- The 60/30/10 allocation of `main()` in `src/main.py`. -/
def exAllocation : TargetAllocation := ⟨6 / 10, 3 / 10, 1 / 10⟩

/-- A benign parameter set: $1000, no spending, one year. -/
def exParams : SimParams :=
  ⟨1000, 0, exAllocation, 50, 1, false, 65, 3 / 40, 25000, 67, 15000⟩

/-- A parameter set forcing immediate depletion: $100 starting value,
$1,000,000 annual spending, two periods, part-time income enabled. -/
def depleteParams : SimParams :=
  ⟨100, 1000000, exAllocation, 50, 2, true, 90, 3 / 40, 25000, 67, 15000⟩

/-- A degenerate return stream: all returns and inflation zero. -/
def zeroReturns : ℕ → AnnualReturns := fun _ => ⟨0, 0, 0, 0⟩

/-- An allocation that is invalid per the spec: weights sum to 3/4 and
the cash weight is negative. -/
def badAllocation : TargetAllocation := ⟨1 / 2, 1 / 2, -1 / 4⟩

/-- A parameter set carrying the invalid allocation. -/
def badParams : SimParams :=
  ⟨1000, 0, badAllocation, 50, 1, false, 65, 3 / 40, 0, 67, 0⟩

/-- A two-row historical dataset for exercising the bootstrap sampler. -/
def exData : List (ℚ × ℚ) := [(1 / 10, 1 / 20), (-1 / 5, 1 / 100)]

/-- A row-index stream that cycles through the two rows of `exData`. -/
def exIdx : ℕ → ℕ := fun i => i % 2

/-- The single record produced by running `exParams` on zero returns:
value stays at $1000, nothing is spent or withdrawn. -/
def exRecord : YearRecord :=
  ⟨0, 50, 1000, 0, 0, 0, 0, 0, 0, 600, 300, 100, 1000⟩

/-- Period 0 of the `depleteParams` run on zero returns: the $975,000
net withdrawal from a $100 portfolio drives every balance negative. -/
def depleteRecord0 : YearRecord :=
  ⟨0, 50, 100, 1000000, 0, 25000, 975000, 9750, 0,
   -584940, -292470, -97490, -974900⟩

/-- Period 1 of the `depleteParams` run on zero returns: the negative
value persists — it is not clamped to zero. -/
def depleteRecord1 : YearRecord :=
  ⟨1, 51, -974900, 1000000, 0, 0, 1000000, 0, 0,
   -584940, -292470, -97490, -974900⟩

/-! ### Structural lemmas about the simulation loop -/

/-- Once the success flag is `false` it can never be set back to `true`:
the flag update only ever writes `false`. -/
lemma runAux_false (p : SimParams) (rets : ℕ → AnnualReturns) :
    ∀ (fuel year : ℕ) (st : SimState),
      (runAux p rets year fuel st false).2 = false := by
  intro fuel
  induction fuel with
  | zero => intro year st; rfl
  | succ n ih =>
    intro year st
    simp only [runAux]
    have h : updateSuccess
        (simulateYear p (rets year) year st).1.portfolio_value_end false = false := by
      simp [updateSuccess]
    rw [h]
    exact ih (year + 1) _

/-- Every record in the loop output is produced by some `simulateYear`
step. -/
lemma runAux_mem (p : SimParams) (rets : ℕ → AnnualReturns) :
    ∀ (fuel year : ℕ) (st : SimState) (success : Bool) (r : YearRecord),
      r ∈ (runAux p rets year fuel st success).1 →
      ∃ y0 st0, r = (simulateYear p (rets y0) y0 st0).1 := by
  intro fuel
  induction fuel with
  | zero => intro year st success r h; simp [runAux] at h
  | succ n ih =>
    intro year st success r h
    simp only [runAux, List.mem_cons] at h
    rcases h with h | h
    · exact ⟨year, st, h⟩
    · exact ih (year + 1) _ _ r h

/-- If any record of the loop output has end-of-period value `≤ 0`, the
final success flag is `false`. -/
lemma runAux_depleted (p : SimParams) (rets : ℕ → AnnualReturns) :
    ∀ (fuel year : ℕ) (st : SimState) (success : Bool) (r : YearRecord),
      r ∈ (runAux p rets year fuel st success).1 → r.portfolio_value_end ≤ 0 →
      (runAux p rets year fuel st success).2 = false := by
  intro fuel
  induction fuel with
  | zero => intro year st success r h; simp [runAux] at h
  | succ n ih =>
    intro year st success r h hle
    simp only [runAux, List.mem_cons] at h ⊢
    rcases h with h | h
    · have hupd : updateSuccess
          (simulateYear p (rets year) year st).1.portfolio_value_end success = false := by
        subst h
        cases success <;> simp [updateSuccess, hle]
      rw [hupd]
      exact runAux_false p rets n (year + 1) _
    · exact ih (year + 1) _ _ r h hle

/-- The loop appends exactly one record per period. -/
lemma runAux_length (p : SimParams) (rets : ℕ → AnnualReturns) :
    ∀ (fuel year : ℕ) (st : SimState) (success : Bool),
      (runAux p rets year fuel st success).1.length = fuel := by
  intro fuel
  induction fuel with
  | zero => intro year st success; rfl
  | succ n ih =>
    intro year st success
    simp only [runAux, List.length_cons]
    rw [ih (year + 1)]

/-- The records are ordered by period index: their `year` fields are
`year, year+1, ...`. -/
lemma runAux_years (p : SimParams) (rets : ℕ → AnnualReturns) :
    ∀ (fuel year : ℕ) (st : SimState) (success : Bool),
      (runAux p rets year fuel st success).1.map (fun r => r.year) =
        List.range' year fuel := by
  intro fuel
  induction fuel with
  | zero => intro year st success; rfl
  | succ n ih =>
    intro year st success
    simp only [runAux, List.map_cons, List.range'_succ]
    rw [ih (year + 1)]
    rfl

/-- The loop of `Simulation.run` appends exactly one value per element of
`all_returns`. -/
lemma mcRunAux_length (p : MCParams) (w : ℚ) :
    ∀ (rs : List (ℚ × ℚ)) (i : ℕ) (pv : ℚ) (s : Bool) (yf : Option ℕ),
      (mcRunAux p w rs i pv s yf).1.length = rs.length := by
  intro rs
  induction rs with
  | nil => intro i pv s yf; rfl
  | cons r rest ih =>
    intro i pv s yf
    simp only [mcRunAux, List.length_cons]
    rw [ih]

/-! ### Step-level lemmas about `simulateYear` -/

/-- The recorded start-of-period value is the current total. -/
lemma simulateYear_start (p : SimParams) (ret : AnnualReturns) (year : ℕ)
    (st : SimState) :
    (simulateYear p ret year st).1.portfolio_value_start = currentPortfolio st := rfl

/-- The recorded withdrawal rate is the guarded quotient of the net
withdrawal by the current total. -/
lemma simulateYear_rate (p : SimParams) (ret : AnnualReturns) (year : ℕ)
    (st : SimState) :
    (simulateYear p ret year st).1.withdrawal_rate =
      actualWithdrawalRate (currentPortfolio st)
        (netWithdrawal (spendingNeed p st)
          (ssIncome p (p.retirement_age + (year : ℤ)) st)
          (parttimeIncome p (p.retirement_age + (year : ℤ)) (currentPortfolio st)
            (preliminaryWithdrawal (spendingNeed p st)
              (ssIncome p (p.retirement_age + (year : ℤ)) st))
            st.cumulative_inflation)) := rfl

/-- The recorded part-time income comes from the guarded trigger. -/
lemma simulateYear_parttime (p : SimParams) (ret : AnnualReturns) (year : ℕ)
    (st : SimState) :
    (simulateYear p ret year st).1.parttime_income =
      parttimeIncome p (p.retirement_age + (year : ℤ)) (currentPortfolio st)
        (preliminaryWithdrawal (spendingNeed p st)
          (ssIncome p (p.retirement_age + (year : ℤ)) st))
        st.cumulative_inflation := rfl

/-- The recorded net withdrawal. -/
lemma simulateYear_net (p : SimParams) (ret : AnnualReturns) (year : ℕ)
    (st : SimState) :
    (simulateYear p ret year st).1.net_withdrawal =
      netWithdrawal (spendingNeed p st)
        (ssIncome p (p.retirement_age + (year : ℤ)) st)
        (parttimeIncome p (p.retirement_age + (year : ℤ)) (currentPortfolio st)
          (preliminaryWithdrawal (spendingNeed p st)
            (ssIncome p (p.retirement_age + (year : ℤ)) st))
          st.cumulative_inflation) := rfl

/-- The recorded spending need. -/
lemma simulateYear_spending (p : SimParams) (ret : AnnualReturns) (year : ℕ)
    (st : SimState) :
    (simulateYear p ret year st).1.spending_need = spendingNeed p st := rfl

/-- The recorded Social Security income. -/
lemma simulateYear_ss (p : SimParams) (ret : AnnualReturns) (year : ℕ)
    (st : SimState) :
    (simulateYear p ret year st).1.ss_income =
      ssIncome p (p.retirement_age + (year : ℤ)) st := rfl

/-- The recorded per-class balances are the rebalanced ones, and the
recorded end value is the post-return total used by the rebalance. -/
lemma simulateYear_rebalanced (p : SimParams) (ret : AnnualReturns) (year : ℕ)
    (st : SimState) :
    (simulateYear p ret year st).1.stocks_value =
      (simulateYear p ret year st).1.portfolio_value_end * p.target_allocation.stocks ∧
    (simulateYear p ret year st).1.bonds_value =
      (simulateYear p ret year st).1.portfolio_value_end * p.target_allocation.bonds ∧
    (simulateYear p ret year st).1.cash_value =
      (simulateYear p ret year st).1.portfolio_value_end * p.target_allocation.cash :=
  ⟨rfl, rfl, rfl⟩

/-- The net withdrawal is a `max` with `0`, hence non-negative. -/
lemma netWithdrawal_nonneg (spending ss pt : ℚ) :
    0 ≤ netWithdrawal spending ss pt :=
  le_max_left 0 _

/-- The guarded withdrawal-rate quotient of a non-negative numerator is
non-negative. -/
lemma actualWithdrawalRate_nonneg (cp net : ℚ) (h : 0 ≤ net) :
    0 ≤ actualWithdrawalRate cp net := by
  unfold actualWithdrawalRate
  split
  · exact div_nonneg h (le_of_lt (by assumption))
  · exact le_refl 0

/-- When the current total is not positive the guard takes the `else`
branch and the rate is `0`. -/
lemma actualWithdrawalRate_of_nonpos (cp net : ℚ) (h : ¬ 0 < cp) :
    actualWithdrawalRate cp net = 0 := by
  unfold actualWithdrawalRate
  exact if_neg h

/-- When the current total is not positive the trigger guard fails and
part-time income is `0`. -/
lemma parttimeIncome_of_nonpos (p : SimParams) (age : ℤ) (cp prelim cumInf : ℚ)
    (h : ¬ 0 < cp) :
    parttimeIncome p age cp prelim cumInf = 0 := by
  unfold parttimeIncome
  rw [if_neg]
  rintro ⟨-, -, hlt⟩
  exact h hlt

/-! ### Evaluation of the concrete runs -/

/-- The benign one-year run evaluates to the single record `exRecord`. -/
lemma exRun_records :
    (simulate_single_retirement exParams zeroReturns).1 = [exRecord] := by
  norm_num [simulate_single_retirement, runAux, simulateYear, initState,
    currentPortfolio, spendingNeed, ssIncome, preliminaryWithdrawal,
    parttimeIncome, netWithdrawal, actualWithdrawalRate, withdrawalStep,
    rebalance, exParams, exAllocation, zeroReturns, exRecord, max_def]

/-- The two-year depletion run evaluates to `[depleteRecord0,
depleteRecord1]`: the recorded values after depletion stay at the
negative total `-974900` rather than being clamped to `0`. -/
lemma depleteRun_records :
    (simulate_single_retirement depleteParams zeroReturns).1 =
      [depleteRecord0, depleteRecord1] := by
  norm_num [simulate_single_retirement, runAux, simulateYear, initState,
    currentPortfolio, spendingNeed, ssIncome, preliminaryWithdrawal,
    parttimeIncome, netWithdrawal, actualWithdrawalRate, withdrawalStep,
    rebalance, depleteParams, exAllocation, zeroReturns, depleteRecord0,
    depleteRecord1, max_def]

/-! ### Claim theorems -/

/-- C8: in every period of a single-path simulation, the recorded
realized withdrawal rate is ≥ 0, and it equals 0 whenever the
start-of-period portfolio value is 0 — the division `net withdrawal ÷
portfolio value` is guarded by `current_portfolio > 0` and the rate is
`0` otherwise. -/
theorem C8_withdrawal_rate_guarded (p : SimParams) (rets : ℕ → AnnualReturns)
    (r : YearRecord) (hr : r ∈ (simulate_single_retirement p rets).1) :
    0 ≤ r.withdrawal_rate ∧
    (r.portfolio_value_start = 0 → r.withdrawal_rate = 0) := by
  obtain ⟨y0, st0, rfl⟩ :=
    runAux_mem p rets p.simulation_years 0 (initState p) true r hr
  constructor
  · rw [simulateYear_rate]
    exact actualWithdrawalRate_nonneg _ _ (netWithdrawal_nonneg _ _ _)
  · intro h0
    rw [simulateYear_start] at h0
    rw [simulateYear_rate]
    exact actualWithdrawalRate_of_nonpos _ _ (by rw [h0]; exact lt_irrefl 0)

/-- Witness for C8 at a concrete run. -/
theorem C8_witness :
    0 ≤ exRecord.withdrawal_rate ∧
    (exRecord.portfolio_value_start = 0 → exRecord.withdrawal_rate = 0) :=
  C8_withdrawal_rate_guarded exParams zeroReturns exRecord
    (by rw [exRun_records]; exact List.mem_singleton_self exRecord)

/-- C9: in every period whose start-of-period total portfolio value is
≤ 0, the supplemental/part-time income recorded for that period is 0,
even when the trigger is enabled and the age is within the cap: the
trigger ratio is only computed under the `current_portfolio > 0` guard,
so the trigger cannot fire once the portfolio is depleted. -/
theorem C9_parttime_zero_when_depleted (p : SimParams)
    (rets : ℕ → AnnualReturns) (r : YearRecord)
    (hr : r ∈ (simulate_single_retirement p rets).1)
    (h : r.portfolio_value_start ≤ 0) :
    r.parttime_income = 0 := by
  obtain ⟨y0, st0, rfl⟩ :=
    runAux_mem p rets p.simulation_years 0 (initState p) true r hr
  rw [simulateYear_start] at h
  rw [simulateYear_parttime]
  exact parttimeIncome_of_nonpos _ _ _ _ _ (not_lt.2 h)

/-- Witness for C9: after the depletion forced in period 0 of
`depleteParams` (part-time income enabled, age within the cap), period
1 starts at a non-positive value and records zero part-time income. -/
theorem C9_witness :
    depleteRecord1.portfolio_value_start ≤ 0 ∧
    depleteRecord1.parttime_income = 0 :=
  ⟨by norm_num [depleteRecord1],
   C9_parttime_zero_when_depleted depleteParams zeroReturns depleteRecord1
     (by rw [depleteRun_records]; exact List.mem_cons_of_mem _ (List.mem_singleton_self _))
     (by norm_num [depleteRecord1])⟩

/-- C10: in every period where Social Security income plus supplemental
income covers the inflation-adjusted spending need, the net withdrawal
is 0 and the withdrawal step leaves every asset-class balance unchanged:
surplus income is discarded, never added to the portfolio. -/
theorem C10_surplus_income_discarded (p : SimParams) (ret : AnnualReturns)
    (year : ℕ) (st : SimState)
    (h : (simulateYear p ret year st).1.spending_need ≤
      (simulateYear p ret year st).1.ss_income +
      (simulateYear p ret year st).1.parttime_income) :
    (simulateYear p ret year st).1.net_withdrawal = 0 ∧
    withdrawalStep (currentPortfolio st)
      (simulateYear p ret year st).1.net_withdrawal
      st.stocks_value st.bonds_value st.cash_value =
      (st.stocks_value, st.bonds_value, st.cash_value) := by
  rw [simulateYear_spending, simulateYear_ss, simulateYear_parttime] at h
  have hnet : (simulateYear p ret year st).1.net_withdrawal = 0 := by
    rw [simulateYear_net]
    unfold netWithdrawal
    exact max_eq_left (by linarith)
  refine ⟨hnet, ?_⟩
  rw [hnet]
  unfold withdrawalStep
  rw [if_neg]
  rintro ⟨-, hlt⟩
  exact lt_irrefl 0 hlt

/-- Witness for C10: with zero annual spending the need (0) is covered
by zero income, so nothing is withdrawn and balances are untouched. -/
theorem C10_witness :
    (simulateYear exParams ⟨0, 0, 0, 0⟩ 0 (initState exParams)).1.net_withdrawal = 0 ∧
    withdrawalStep (currentPortfolio (initState exParams))
      (simulateYear exParams ⟨0, 0, 0, 0⟩ 0 (initState exParams)).1.net_withdrawal
      (initState exParams).stocks_value (initState exParams).bonds_value
      (initState exParams).cash_value =
      ((initState exParams).stocks_value, (initState exParams).bonds_value,
        (initState exParams).cash_value) :=
  C10_surplus_income_discarded exParams ⟨0, 0, 0, 0⟩ 0 (initState exParams)
    (by rw [simulateYear_spending, simulateYear_ss, simulateYear_parttime]
        norm_num [spendingNeed, ssIncome, parttimeIncome, preliminaryWithdrawal,
          currentPortfolio, initState, exParams, exAllocation, max_def])

/-- C3: in every period, immediately after the rebalancing step, each
recorded asset-class balance equals the recorded end-of-period total
times the class's target weight, and (whenever the total is non-zero)
each balance divided by the total equals the weight; the rebalance is
applied unconditionally every period. -/
theorem C3_rebalancing_invariant (p : SimParams) (rets : ℕ → AnnualReturns)
    (r : YearRecord) (hr : r ∈ (simulate_single_retirement p rets).1) :
    (r.stocks_value = r.portfolio_value_end * p.target_allocation.stocks ∧
     r.bonds_value = r.portfolio_value_end * p.target_allocation.bonds ∧
     r.cash_value = r.portfolio_value_end * p.target_allocation.cash) ∧
    (r.portfolio_value_end ≠ 0 →
      r.stocks_value / r.portfolio_value_end = p.target_allocation.stocks ∧
      r.bonds_value / r.portfolio_value_end = p.target_allocation.bonds ∧
      r.cash_value / r.portfolio_value_end = p.target_allocation.cash) := by
  obtain ⟨y0, st0, rfl⟩ :=
    runAux_mem p rets p.simulation_years 0 (initState p) true r hr
  obtain ⟨h1, h2, h3⟩ := simulateYear_rebalanced p (rets y0) y0 st0
  refine ⟨⟨h1, h2, h3⟩, fun hne => ?_⟩
  rw [h1, h2, h3]
  exact ⟨mul_div_cancel_left₀ _ hne, mul_div_cancel_left₀ _ hne,
    mul_div_cancel_left₀ _ hne⟩

/-- Witness for C3 at a concrete run: the recorded stock balance over
the recorded end value is exactly the 6/10 stock weight. -/
theorem C3_witness :
    exRecord.stocks_value / exRecord.portfolio_value_end =
      exParams.target_allocation.stocks :=
  ((C3_rebalancing_invariant exParams zeroReturns exRecord
      (by rw [exRun_records]; exact List.mem_singleton_self exRecord)).2
    (by norm_num [exRecord])).1

/-- C1 counterexample: in the concrete depletion run the portfolio goes
non-positive in period 0, yet the recorded end-of-period value of
period 1 is `-974900`, not `0` — the code never clamps the value, so
the claim's "every subsequently recorded value equals 0" is false. -/
theorem C1_counterexample :
    ((simulate_single_retirement depleteParams zeroReturns).1.getD 0
      dummyRecord).portfolio_value_end ≤ 0 ∧
    ((simulate_single_retirement depleteParams zeroReturns).1.getD 1
      dummyRecord).portfolio_value_end = -974900 ∧
    ((simulate_single_retirement depleteParams zeroReturns).1.getD 1
      dummyRecord).portfolio_value_end ≠ 0 := by
  rw [depleteRun_records]
  refine ⟨?_, ?_, ?_⟩ <;>
    norm_num [List.getD_cons_zero, List.getD_cons_succ, depleteRecord0,
      depleteRecord1]

/-- C1 (amended): once a trial's total portfolio value reaches ≤ 0 at
some period, the trial's final success flag is `false`, and the flag is
monotone — once `false` it never reverts to `true` for the remainder of
the run.  (Recorded values after depletion are *not* clamped to 0.) -/
theorem C1_monotone_failure (p : SimParams) (rets : ℕ → AnnualReturns) :
    (∀ (fuel year : ℕ) (st : SimState),
      (runAux p rets year fuel st false).2 = false) ∧
    (∀ r ∈ (simulate_single_retirement p rets).1, r.portfolio_value_end ≤ 0 →
      (simulate_single_retirement p rets).2 = false) :=
  ⟨fun fuel year st => runAux_false p rets fuel year st,
   fun r hr hle =>
     runAux_depleted p rets p.simulation_years 0 (initState p) true r hr hle⟩

/-- Witness for C1 at the concrete depletion run. -/
theorem C1_witness :
    (runAux depleteParams zeroReturns 0 2 (initState depleteParams) false).2 = false ∧
    (simulate_single_retirement depleteParams zeroReturns).2 = false :=
  ⟨(C1_monotone_failure depleteParams zeroReturns).1 2 0 (initState depleteParams),
   (C1_monotone_failure depleteParams zeroReturns).2 depleteRecord0
     (by rw [depleteRun_records]; exact List.mem_cons_self _ _)
     (by norm_num [depleteRecord0])⟩

/-- C2 counterexample: `RetirementSimulation.__init__` accepts the
allocation `⟨1/2, 1/2, -1/4⟩`, whose weights sum to `3/4 ≠ 1` and whose
cash weight is negative — construction does not fail, so the claimed
construction-time validation does not exist. -/
theorem C2_counterexample :
    (mkRetirementSimulation zeroReturns badParams).params.target_allocation.stocks +
      (mkRetirementSimulation zeroReturns badParams).params.target_allocation.bonds +
      (mkRetirementSimulation zeroReturns badParams).params.target_allocation.cash ≠ 1 ∧
    (mkRetirementSimulation zeroReturns badParams).params.target_allocation.cash < 0 := by
  constructor <;> norm_num [mkRetirementSimulation, badParams, badAllocation]

/-- C2 (amended): construction performs no validation at all — for any
weights whatsoever (negative, not summing to 1), a
`RetirementSimulation` is successfully constructed and stores exactly
those weights. -/
theorem C2_no_validation (ws wb wc : ℚ) (rets : ℕ → AnnualReturns)
    (p : SimParams) :
    ∃ sim : RetirementSimulation,
      sim = mkRetirementSimulation rets
        { p with target_allocation := ⟨ws, wb, wc⟩ } ∧
      sim.params.target_allocation = ⟨ws, wb, wc⟩ :=
  ⟨_, rfl, rfl⟩

/-- C4: a single-path run produces exactly `simulation_years` records,
one per period and ordered by period index, with no early exit on
depletion (the count holds for every parameter set and return stream);
likewise `Simulation.run` in `monte_carlo.py` records exactly one value
per generated return period. -/
theorem C4_fixed_record_count (p : SimParams) (rets : ℕ → AnnualReturns) :
    (simulate_single_retirement p rets).1.length = p.simulation_years ∧
    (simulate_single_retirement p rets).1.map (fun r => r.year) =
      List.range p.simulation_years ∧
    ∀ (mp : MCParams) (rs : List (ℚ × ℚ)),
      (mcRun mp rs).portfolio_values.length = rs.length := by
  refine ⟨runAux_length p rets p.simulation_years 0 _ _, ?_, ?_⟩
  · unfold simulate_single_retirement
    rw [runAux_years p rets p.simulation_years 0 _ _]
    exact (List.range_eq_range' p.simulation_years).symm
  · intro mp rs
    exact mcRunAux_length mp _ rs 0 _ true none

/-- C5: the mean-reverting model seeds each asset class at its long-run
mean, follows the AR(1) recurrence `r[t] = μ + φ·(r[t−1] − μ) + ε[t]`
with per-class independent innovation streams, and scales innovations
by `σ = historical_std · sqrt(1 − φ²)` (so `σ² = historical_std²·(1 −
φ²)` and `σ ≥ 0`); the produced array has one (stock, bond) pair per
year. -/
theorem C5_ar1_model (zs zb : ℕ → ℝ) (t : ℕ) :
    stockReturns zs 0 = stock_mu ∧
    bondReturns zb 0 = bond_mu ∧
    stockReturns zs (t + 1) =
      stock_mu + stock_phi * (stockReturns zs t - stock_mu) +
        stock_sigma * zs (t + 1) ∧
    bondReturns zb (t + 1) =
      bond_mu + bond_phi * (bondReturns zb t - bond_mu) +
        bond_sigma * zb (t + 1) ∧
    stock_sigma ^ 2 = stock_historical_std ^ 2 * (1 - stock_phi ^ 2) ∧
    0 ≤ stock_sigma ∧
    bond_sigma ^ 2 = bond_historical_std ^ 2 * (1 - bond_phi ^ 2) ∧
    0 ≤ bond_sigma ∧
    (ar1_returns zs zb).length = ar1_n_years := by
  refine ⟨rfl, rfl, rfl, rfl, ?_, ?_, ?_, ?_, by simp [ar1_returns]⟩
  · unfold stock_sigma
    rw [mul_pow, Real.sq_sqrt (by norm_num [stock_phi])]
  · exact mul_nonneg (by norm_num [stock_historical_std]) (Real.sqrt_nonneg _)
  · unfold bond_sigma
    rw [mul_pow, Real.sq_sqrt (by norm_num [bond_phi])]
  · exact mul_nonneg (by norm_num [bond_historical_std]) (Real.sqrt_nonneg _)

/-- C6: the bootstrap draws paired rows with replacement, so for every
requested period count `n` — also when `n` exceeds the dataset's row
count — it succeeds with exactly `n` rows, each a row of the dataset. -/
theorem C6_bootstrap_with_replacement (data : List (ℚ × ℚ)) (idx : ℕ → ℕ)
    (n : ℕ) (hidx : ∀ i, idx i < data.length) :
    (bootstrap_rows data idx n).length = n ∧
    ∀ x ∈ bootstrap_rows data idx n, x ∈ data := by
  constructor
  · simp [bootstrap_rows]
  · intro x hx
    simp only [bootstrap_rows, List.mem_map, List.mem_range] at hx
    obtain ⟨i, _, rfl⟩ := hx
    rw [List.getD_eq_getElem?_getD, List.getElem?_eq_getElem (hidx i)]
    exact List.getElem_mem (hidx i)

/-- Witness for C6: 5 periods are requested from a 2-row dataset and 5
paired rows come back. -/
theorem C6_witness :
    exData.length < 5 ∧
    (bootstrap_rows exData exIdx 5).length = 5 ∧
    ∀ x ∈ bootstrap_rows exData exIdx 5, x ∈ exData :=
  ⟨by norm_num [exData],
   C6_bootstrap_with_replacement exData exIdx 5
     (fun i => Nat.mod_lt i (by norm_num))⟩

/-- The depletion-age list of `s :: rest` unfolds one fold step. -/
lemma depletionAges_cons (s : List YearRecord × Bool)
    (rest : List (List YearRecord × Bool)) :
    depletionAges (s :: rest) =
      if s.2 = false then
        (match depletionAge s.1 with
         | some a => a :: depletionAges rest
         | none => depletionAges rest)
      else depletionAges rest := rfl

/-- If every trial succeeded, no depletion age is collected. -/
lemma depletionAges_of_all_success (sims : List (List YearRecord × Bool))
    (h : ∀ s ∈ sims, s.2 = true) : depletionAges sims = [] := by
  induction sims with
  | nil => rfl
  | cons s rest ih =>
    rw [depletionAges_cons, if_neg, ih]
    · exact fun x hx => h x (List.mem_cons_of_mem s hx)
    · rw [h s (List.mem_cons_self s rest)]
      exact fun hcontra => Bool.true_eq_false.mp hcontra

/-- Depletion ages come only from the failed trials: filtering the
trial list to `success = false` does not change the collected ages. -/
lemma depletionAges_eq_filter (sims : List (List YearRecord × Bool)) :
    depletionAges sims = depletionAges (sims.filter fun s => !s.2) := by
  induction sims with
  | nil => rfl
  | cons s rest ih =>
    rw [List.filter_cons]
    cases hs : s.2 with
    | false =>
      simp only [Bool.not_false, if_pos]
      rw [depletionAges_cons, depletionAges_cons, hs, ih]
    | true =>
      simp only [Bool.not_true, Bool.false_eq_true, if_neg, ite_false]
      rw [depletionAges_cons, hs, ih]
      simp

/-- C7: depletion-age statistics are computed only over the trials whose
success flag is `false`, and when no trial failed every statistic
(median, mean, earliest) is the explicitly absent value `none`, never
zero. -/
theorem C7_depletion_stats_absent (sims : List (List YearRecord × Bool))
    (h : ∀ s ∈ sims, s.2 = true) :
    depletionAgeStats sims = ⟨none, none, none⟩ ∧
    depletionAges sims = depletionAges (sims.filter fun s => !s.2) := by
  refine ⟨?_, depletionAges_eq_filter sims⟩
  unfold depletionAgeStats
  rw [depletionAges_of_all_success sims h]
  rfl

/-- Witness for C7: a run with one successful trial reports all three
depletion statistics as absent. -/
theorem C7_witness :
    depletionAgeStats [([dummyRecord], true)] = ⟨none, none, none⟩ ∧
    depletionAges [([dummyRecord], true)] =
      depletionAges
        (([([dummyRecord], true)] : List (List YearRecord × Bool)).filter
          fun s => !s.2) :=
  C7_depletion_stats_absent [([dummyRecord], true)]
    (by intro s hs; rcases List.mem_singleton.mp hs with rfl; rfl)

end RetirementCalc
